import Mathlib

/-!
Verification of `httpproblem/problem.py` (RFC 7807 problem-details helpers).

The Python module is shallowly embedded:
* Python scalar values that can flow through the module are modelled by `PyVal`
  (`None`, booleans, integers, strings).
* Python dicts are modelled as insertion-ordered association lists
  (`List (String × α)`): assignment to an existing key keeps its position,
  assignment to a new key appends, and `dict.update` folds assignments.
* The only mutable object in play (`headers` in `problem_http_response`) lives
  in an explicit object store `Heap`; a Python dict argument is a reference
  (`Option Nat`, `none` being the default `headers=None`).
* Fallible operations (`int(status)`, Python call-binding collisions) return
  `Except PyErr`.
-/

/-- Python values reaching this module: `None`, `bool`, `int`, `str`. -/
inductive PyVal where
  | vNone : PyVal
  | vBool : Bool → PyVal
  | vInt : Int → PyVal
  | vStr : String → PyVal
deriving DecidableEq, Repr

/-- Python errors the embedded code can raise. -/
inductive PyErr where
  | invalidArgument : PyErr
  | duplicateKeyword : PyErr
deriving DecidableEq, Repr

/-- Python truthiness of a `PyVal` (`bool(x)`). -/
def pyTruthy : PyVal → Bool
  | .vNone => false
  | .vBool b => b
  | .vInt n => n != 0
  | .vStr s => s != ""

/-- Digit-accumulator for decimal string parsing. -/
def parseNatAux : List Char → Nat → Option Nat
  | [], acc => some acc
  | c :: cs, acc =>
    if c.isDigit then parseNatAux cs (acc * 10 + (c.toNat - 48)) else none

/-- Decimal natural-number literal parser (`none` on the empty string or any
non-digit character). -/
def parseNat (l : List Char) : Option Nat :=
  if l = [] then none else parseNatAux l 0

/-- Integer literal parser, modelling which strings Python `int(str)`
accepts: an optional sign followed by decimal digits. -/
def pyStrToInt (s : String) : Option Int :=
  match s.data with
  | '-' :: rest => (parseNat rest).map (fun n => -(n : Int))
  | '+' :: rest => (parseNat rest).map (fun n => (n : Int))
  | l => (parseNat l).map (fun n => (n : Int))

/-- Python `int(x)`: identity on ints, `True`/`False` to `1`/`0`, integer
literals parsed from strings, everything else raises. -/
def pyToInt : PyVal → Except PyErr Int
  | .vInt n => .ok n
  | .vBool b => .ok (if b then 1 else 0)
  | .vStr s =>
    match pyStrToInt s with
    | some n => .ok n
    | none => .error .invalidArgument
  | .vNone => .error .invalidArgument

/-- Python `str(x)` for the modelled values. -/
def pyStr : PyVal → String
  | .vNone => "None"
  | .vBool true => "True"
  | .vBool false => "False"
  | .vInt n => toString n
  | .vStr s => s

/-- A Python dict, as an insertion-ordered association list. -/
abbrev Dict := List (String × PyVal)

/-- Dict lookup (`d[k]` / `d.get(k)`): keys are unique, first match wins. -/
def dictGet {α : Type} : List (String × α) → String → Option α
  | [], _ => none
  | (k', v) :: rest, k => if k' = k then some v else dictGet rest k

/-- Dict assignment (`d[k] = v`): an existing key keeps its position and gets
the new value, a new key is appended at the end. -/
def dictInsert {α : Type} : List (String × α) → String → α → List (String × α)
  | [], k, v => [(k, v)]
  | (k', v') :: rest, k, v =>
    if k' = k then (k', v) :: rest else (k', v') :: dictInsert rest k v

/-- Dict merge (`d.update(l)`): assignments performed in order. -/
def dictUpdate {α : Type} (d : List (String × α)) (l : List (String × α)) :
    List (String × α) :=
  l.foldl (fun acc q => dictInsert acc q.1 q.2) d

/-- The value the last assignment of key `k` in the assignment list `l` would
leave behind (`none` when `l` never assigns `k`). -/
def lookupLast {α : Type} : List (String × α) → String → Option α
  | [], _ => none
  | (k', v) :: rest, k =>
    match lookupLast rest k with
    | some w => some w
    | none => if k' = k then some v else none

/-- First-of-two-options: the first lookup when it hits, the second otherwise. -/
def orD {α : Type} : Option α → Option α → Option α
  | some v, _ => some v
  | none, b => b

theorem dictGet_insert_self {α : Type} (d : List (String × α)) (k : String) (v : α) :
    dictGet (dictInsert d k v) k = some v := by
  induction d with
  | nil => simp [dictInsert, dictGet]
  | cons q rest ih =>
    by_cases h : q.1 = k
    · simp [dictInsert, dictGet, h]
    · simp [dictInsert, dictGet, h, ih]

theorem dictGet_insert_ne {α : Type} (d : List (String × α)) (k k' : String) (v : α)
    (h : k' ≠ k) : dictGet (dictInsert d k v) k' = dictGet d k' := by
  induction d with
  | nil => simp [dictInsert, dictGet, Ne.symm h]
  | cons q rest ih =>
    obtain ⟨k0, v0⟩ := q
    by_cases hq : k0 = k
    · subst hq
      simp [dictInsert, dictGet, Ne.symm h]
    · simp [dictInsert, dictGet, hq, ih]

theorem dictUpdate_nil {α : Type} (d : List (String × α)) : dictUpdate d [] = d := rfl

theorem dictGet_update {α : Type} (l d : List (String × α)) (k : String) :
    dictGet (dictUpdate d l) k = orD (lookupLast l k) (dictGet d k) := by
  induction l generalizing d with
  | nil => simp [dictUpdate, lookupLast, orD]
  | cons q rest ih =>
    have step : dictUpdate d (q :: rest) = dictUpdate (dictInsert d q.1 q.2) rest := rfl
    rw [step, ih]
    cases hres : lookupLast rest k with
    | some w => simp [lookupLast, hres, orD]
    | none =>
      by_cases hk : q.1 = k
      · subst hk
        simp [lookupLast, hres, orD, dictGet_insert_self]
      · simp [lookupLast, hres, orD, hk, dictGet_insert_ne d q.1 k q.2 (Ne.symm hk)]

theorem lookupLast_eq_none {α : Type} (l : List (String × α)) (k : String)
    (h : ∀ q ∈ l, q.1 ≠ k) : lookupLast l k = none := by
  induction l with
  | nil => rfl
  | cons q rest ih =>
    have hq : q.1 ≠ k := h q (by simp)
    have hrest : lookupLast rest k = none := ih (fun p hp => h p (by simp [hp]))
    simp [lookupLast, hrest, hq]

theorem dictGet_update_nilbase {α : Type} (l : List (String × α)) (k : String) :
    dictGet (dictUpdate [] l) k = lookupLast l k := by
  rw [dictGet_update]
  cases lookupLast l k <;> simp [orD, dictGet]

theorem dictInsert_eq_append {α : Type} (d : List (String × α)) (k : String) (v : α)
    (h : ∀ q ∈ d, q.1 ≠ k) : dictInsert d k v = d ++ [(k, v)] := by
  induction d with
  | nil => rfl
  | cons q rest ih =>
    have hq : q.1 ≠ k := h q (by simp)
    simp [dictInsert, hq, ih (fun p hp => h p (by simp [hp]))]

/-- The CPython `http.client.responses` registry: HTTP status code to standard
reason phrase, consulted read-only by `problem`. -/
def httplibResponsesList : List (Int × String) :=
  [(100, "Continue"), (101, "Switching Protocols"), (102, "Processing"),
   (103, "Early Hints"),
   (200, "OK"), (201, "Created"), (202, "Accepted"),
   (203, "Non-Authoritative Information"), (204, "No Content"),
   (205, "Reset Content"), (206, "Partial Content"), (207, "Multi-Status"),
   (208, "Already Reported"), (226, "IM Used"),
   (300, "Multiple Choices"), (301, "Moved Permanently"), (302, "Found"),
   (303, "See Other"), (304, "Not Modified"), (305, "Use Proxy"),
   (307, "Temporary Redirect"), (308, "Permanent Redirect"),
   (400, "Bad Request"), (401, "Unauthorized"), (402, "Payment Required"),
   (403, "Forbidden"), (404, "Not Found"), (405, "Method Not Allowed"),
   (406, "Not Acceptable"), (407, "Proxy Authentication Required"),
   (408, "Request Timeout"), (409, "Conflict"), (410, "Gone"),
   (411, "Length Required"), (412, "Precondition Failed"),
   (413, "Request Entity Too Large"), (414, "Request-URI Too Long"),
   (415, "Unsupported Media Type"), (416, "Requested Range Not Satisfiable"),
   (417, "Expectation Failed"), (418, "I\x27m a Teapot"),
   (421, "Misdirected Request"), (422, "Unprocessable Entity"),
   (423, "Locked"), (424, "Failed Dependency"), (425, "Too Early"),
   (426, "Upgrade Required"), (428, "Precondition Required"),
   (429, "Too Many Requests"), (431, "Request Header Fields Too Large"),
   (451, "Unavailable For Legal Reasons"),
   (500, "Internal Server Error"), (501, "Not Implemented"),
   (502, "Bad Gateway"), (503, "Service Unavailable"),
   (504, "Gateway Timeout"), (505, "HTTP Version Not Supported"),
   (506, "Variant Also Negotiates"), (507, "Insufficient Storage"),
   (508, "Loop Detected"), (510, "Not Extended"),
   (511, "Network Authentication Required")]

/-- `httplib.responses[n]` for an integer key, as an optional lookup. -/
def httplibResponses (n : Int) : Option String :=
  (httplibResponsesList.find? (fun q => q.1 == n)).map (fun q => q.2)

/-- `status in httplib.responses` together with `httplib.responses[status]`:
the table keys are ints, so only an int (or a bool, which Python hashes as an
int) can hit; strings and `None` never match. -/
def responsesLookup : PyVal → Option String
  | .vInt n => httplibResponses n
  | .vBool b => httplibResponses (if b then 1 else 0)
  | _ => none

/-- Lines 127-130 of `problem.py`, the auto-title step inside `if status:`:
`if (not title or title == 'about:blank') and status in httplib.responses:
problem_dict['title'] = httplib.responses[status]`. -/
def autoTitle (status title : PyVal) (d : Dict) : Dict :=
  if !pyTruthy title || title == PyVal.vStr "about:blank" then
    match responsesLookup status with
    | some ph => dictInsert d "title" (.vStr ph)
    | none => d
  else d

/-- One guarded assignment `if cond: d[k] = v`. -/
def insIf (cond : Bool) (k : String) (v : PyVal) (d : Dict) : Dict :=
  if cond then dictInsert d k v else d

/-- Lines 131-138 of `problem.py`: the four guarded truthy-field assignments
(`title`, `detail`, `type`, `instance`, in source order) after the status
block. -/
def insTail (title detail type instance_ : PyVal) (d : Dict) : Dict :=
  insIf (pyTruthy instance_) "instance" (.vStr (pyStr instance_))
    (insIf (pyTruthy type) "type" (.vStr (pyStr type))
      (insIf (pyTruthy detail) "detail" (.vStr (pyStr detail))
        (insIf (pyTruthy title) "title" (.vStr (pyStr title)) d)))

/-- The standard-field part of `problem` (lines 125-138): the `if status:`
block with `int(status)` coercion and auto-title, then the four truthy-field
assignments, before `problem_dict.update(kwargs)`. -/
def problemStd (status title detail type instance_ : PyVal) : Except PyErr Dict :=
  if pyTruthy status then
    match pyToInt status with
    | .error e => .error e
    | .ok n =>
      .ok (insTail title detail type instance_
            (autoTitle status title (dictInsert [] "status" (.vInt n))))
  else
    .ok (insTail title detail type instance_ [])

/-- `problem(status=None, title=None, detail=None, type=None, instance=None,
**kwargs)` (lines 104-139 of `problem.py`): builds the standard fields, then
`problem_dict.update(kwargs)`. -/
def problem (status title detail type instance_ : PyVal) (kwargs : Dict) :
    Except PyErr Dict :=
  (problemStd status title detail type instance_).map
    (fun d => dictUpdate d kwargs)

example :
    problem (.vInt 404) .vNone .vNone .vNone .vNone []
      = .ok [("status", .vInt 404), ("title", .vStr "Not Found")] := rfl

example :
    problem (.vInt 599) .vNone .vNone .vNone .vNone []
      = .ok [("status", .vInt 599)] := rfl

example :
    problem (.vInt 404) (.vStr "about:blank") .vNone .vNone .vNone []
      = .ok [("status", .vInt 404), ("title", .vStr "about:blank")] := rfl

theorem dictGet_insIf_self (c : Bool) (k : String) (v : PyVal) (d : Dict) :
    dictGet (insIf c k v d) k = if c then some v else dictGet d k := by
  cases c <;> simp [insIf, dictGet_insert_self]

theorem dictGet_insIf_ne (c : Bool) (k k' : String) (v : PyVal) (d : Dict)
    (h : k' ≠ k) : dictGet (insIf c k v d) k' = dictGet d k' := by
  cases c <;> simp [insIf, dictGet_insert_ne d k k' v h]

theorem dictGet_autoTitle_ne (s t : PyVal) (d : Dict) (k : String)
    (hk : k ≠ "title") : dictGet (autoTitle s t d) k = dictGet d k := by
  unfold autoTitle
  split
  · cases responsesLookup s with
    | some ph => simp [dictGet_insert_ne d "title" k _ hk]
    | none => rfl
  · rfl

theorem insTail_get_title (t dt ty i : PyVal) (d : Dict) :
    dictGet (insTail t dt ty i d) "title"
      = if pyTruthy t then some (.vStr (pyStr t)) else dictGet d "title" := by
  unfold insTail
  rw [dictGet_insIf_ne _ _ _ _ _ (by decide), dictGet_insIf_ne _ _ _ _ _ (by decide),
    dictGet_insIf_ne _ _ _ _ _ (by decide), dictGet_insIf_self]

theorem insTail_get_detail (t dt ty i : PyVal) (d : Dict) :
    dictGet (insTail t dt ty i d) "detail"
      = if pyTruthy dt then some (.vStr (pyStr dt)) else dictGet d "detail" := by
  unfold insTail
  rw [dictGet_insIf_ne _ _ _ _ _ (by decide), dictGet_insIf_ne _ _ _ _ _ (by decide),
    dictGet_insIf_self, dictGet_insIf_ne _ _ _ _ _ (by decide)]

theorem insTail_get_type (t dt ty i : PyVal) (d : Dict) :
    dictGet (insTail t dt ty i d) "type"
      = if pyTruthy ty then some (.vStr (pyStr ty)) else dictGet d "type" := by
  unfold insTail
  rw [dictGet_insIf_ne _ _ _ _ _ (by decide), dictGet_insIf_self,
    dictGet_insIf_ne _ _ _ _ _ (by decide), dictGet_insIf_ne _ _ _ _ _ (by decide)]

theorem insTail_get_instance (t dt ty i : PyVal) (d : Dict) :
    dictGet (insTail t dt ty i d) "instance"
      = if pyTruthy i then some (.vStr (pyStr i)) else dictGet d "instance" := by
  unfold insTail
  rw [dictGet_insIf_self, dictGet_insIf_ne _ _ _ _ _ (by decide),
    dictGet_insIf_ne _ _ _ _ _ (by decide), dictGet_insIf_ne _ _ _ _ _ (by decide)]

theorem insTail_get_other (t dt ty i : PyVal) (d : Dict) (k : String)
    (h1 : k ≠ "title") (h2 : k ≠ "detail") (h3 : k ≠ "type")
    (h4 : k ≠ "instance") :
    dictGet (insTail t dt ty i d) k = dictGet d k := by
  unfold insTail
  rw [dictGet_insIf_ne _ _ _ _ _ h4, dictGet_insIf_ne _ _ _ _ _ h3,
    dictGet_insIf_ne _ _ _ _ _ h2, dictGet_insIf_ne _ _ _ _ _ h1]

theorem problemStd_falsy (s t dt ty i : PyVal) (h : pyTruthy s = false) :
    problemStd s t dt ty i = .ok (insTail t dt ty i []) := by
  simp [problemStd, h]

theorem problemStd_err (s t dt ty i : PyVal) (e : PyErr) (h : pyTruthy s = true)
    (he : pyToInt s = .error e) : problemStd s t dt ty i = .error e := by
  simp [problemStd, h, he]

theorem problemStd_ok (s t dt ty i : PyVal) (n : Int) (h : pyTruthy s = true)
    (hn : pyToInt s = .ok n) :
    problemStd s t dt ty i
      = .ok (insTail t dt ty i
          (autoTitle s t (dictInsert [] "status" (.vInt n)))) := by
  simp [problemStd, h, hn]

theorem problem_ok_elim (s t dt ty i : PyVal) (kw d : Dict)
    (h : problem s t dt ty i kw = .ok d) :
    ∃ d0, problemStd s t dt ty i = .ok d0 ∧ d = dictUpdate d0 kw := by
  cases h0 : problemStd s t dt ty i with
  | ok d0 =>
    refine ⟨d0, rfl, ?_⟩
    simp [problem, h0, Except.map] at h
    exact h.symm
  | error e => simp [problem, h0, Except.map] at h

theorem problemStd_ok_shape_truthy (s t dt ty i : PyVal) (n : Int) (d0 : Dict)
    (hs : pyTruthy s = true) (hn : pyToInt s = .ok n)
    (h0 : problemStd s t dt ty i = .ok d0) :
    d0 = insTail t dt ty i (autoTitle s t (dictInsert [] "status" (.vInt n))) := by
  rw [problemStd_ok s t dt ty i n hs hn] at h0
  injection h0 with h1
  exact h1.symm

theorem problemStd_ok_shape_falsy (s t dt ty i : PyVal) (d0 : Dict)
    (hs : pyTruthy s = false) (h0 : problemStd s t dt ty i = .ok d0) :
    d0 = insTail t dt ty i [] := by
  rw [problemStd_falsy s t dt ty i hs] at h0
  injection h0 with h1
  exact h1.symm

theorem insIf_not_none (c : Bool) (k0 : String) (v : PyVal) (d : Dict)
    (hd : ∀ k, dictGet d k ≠ some PyVal.vNone) (hv : v ≠ PyVal.vNone) :
    ∀ k, dictGet (insIf c k0 v d) k ≠ some PyVal.vNone := by
  intro k
  by_cases hk : k = k0
  · subst hk
    rw [dictGet_insIf_self]
    cases c
    · simpa using hd k
    · simp [hv]
  · rw [dictGet_insIf_ne _ _ _ _ _ hk]
    exact hd k

theorem autoTitle_not_none (s t : PyVal) (d : Dict)
    (hd : ∀ k, dictGet d k ≠ some PyVal.vNone) :
    ∀ k, dictGet (autoTitle s t d) k ≠ some PyVal.vNone := by
  intro k
  unfold autoTitle
  split
  · cases hr : responsesLookup s with
    | some ph =>
      by_cases hk : k = "title"
      · subst hk
        rw [dictGet_insert_self]
        simp
      · rw [dictGet_insert_ne _ _ _ _ hk]
        exact hd k
    | none => exact hd k
  · exact hd k

theorem insTail_not_none (t dt ty i : PyVal) (d : Dict)
    (hd : ∀ k, dictGet d k ≠ some PyVal.vNone) :
    ∀ k, dictGet (insTail t dt ty i d) k ≠ some PyVal.vNone := by
  unfold insTail
  exact insIf_not_none _ _ _ _
    (insIf_not_none _ _ _ _
      (insIf_not_none _ _ _ _
        (insIf_not_none _ _ _ _ hd (by simp)) (by simp)) (by simp)) (by simp)

theorem statusBase_not_none (n : Int) :
    ∀ k, dictGet (dictInsert ([] : Dict) "status" (.vInt n)) k
      ≠ some PyVal.vNone := by
  intro k
  simp only [dictInsert, dictGet]
  split <;> simp

theorem statusBase_get_other (n : Int) (k : String) (hk : k ≠ "status") :
    dictGet (dictInsert ([] : Dict) "status" (.vInt n)) k = none := by
  simp [dictInsert, dictGet, Ne.symm hk]

theorem problemStd_not_none (s t dt ty i : PyVal) (d0 : Dict)
    (h0 : problemStd s t dt ty i = .ok d0) :
    ∀ k, dictGet d0 k ≠ some PyVal.vNone := by
  cases hs : pyTruthy s with
  | false =>
    rw [problemStd_ok_shape_falsy s t dt ty i d0 hs h0]
    exact insTail_not_none _ _ _ _ _ (by intro k; simp [dictGet])
  | true =>
    cases hn : pyToInt s with
    | error e =>
      rw [problemStd_err s t dt ty i e hs hn] at h0
      exact absurd h0 (by simp)
    | ok n =>
      rw [problemStd_ok_shape_truthy s t dt ty i n d0 hs hn h0]
      exact insTail_not_none _ _ _ _ _ (autoTitle_not_none _ _ _ (statusBase_not_none n))

/-- Whether an `Except` value is a success. -/
def exOk {ε α : Type} : Except ε α → Bool
  | .ok _ => true
  | .error _ => false

/-- C1 (counterexample): `problem(status=404, foo=None)` returns a mapping in
which the standard field `title`, whose supplied value `None` is falsy, is
present as a key (auto-populated from the reason phrase), and in which the
key `foo` maps to the null value — so neither "every falsy standard field is
absent" nor "no key ever maps to null" holds as stated. -/
theorem problem_null_extension_counterexample :
    problem (.vInt 404) .vNone .vNone .vNone .vNone [("foo", PyVal.vNone)]
        = .ok [("status", .vInt 404), ("title", .vStr "Not Found"),
               ("foo", PyVal.vNone)]
    ∧ dictGet [("status", PyVal.vInt 404), ("title", PyVal.vStr "Not Found"),
               ("foo", PyVal.vNone)] "foo" = some PyVal.vNone
    ∧ dictGet [("status", PyVal.vInt 404), ("title", PyVal.vStr "Not Found"),
               ("foo", PyVal.vNone)] "title" = some (PyVal.vStr "Not Found")
    ∧ pyTruthy PyVal.vNone = false :=
  ⟨rfl, rfl, rfl, rfl⟩

/-- C1 (amended): for every input whose extension keys avoid the five standard
names (which Python keyword binding guarantees for any expressible call),
every standard field whose supplied value is falsy is absent as a key from
the returned mapping — except `title`, which is auto-populated from the
reason phrase when the status is truthy and recognized — and a key maps to
the null value only when an extension maps it to null. -/
theorem problem_falsy_fields_absent (s t dt ty i : PyVal) (kw d : Dict)
    (hkw : ∀ q ∈ kw,
      q.1 ∉ (["status", "title", "detail", "type", "instance"] : List String))
    (h : problem s t dt ty i kw = .ok d) :
    (∀ k, dictGet d k = some PyVal.vNone → lookupLast kw k = some PyVal.vNone)
    ∧ (pyTruthy s = false → dictGet d "status" = none)
    ∧ (pyTruthy t = false → responsesLookup s = none → dictGet d "title" = none)
    ∧ (pyTruthy dt = false → dictGet d "detail" = none)
    ∧ (pyTruthy ty = false → dictGet d "type" = none)
    ∧ (pyTruthy i = false → dictGet d "instance" = none) := by
  obtain ⟨d0, h0, rfl⟩ := problem_ok_elim s t dt ty i kw d h
  have hstd0 : ∀ k, dictGet d0 k ≠ some PyVal.vNone := problemStd_not_none s t dt ty i d0 h0
  have hkey : ∀ x, x ∈ (["status", "title", "detail", "type", "instance"] : List String)
      → lookupLast kw x = none := by
    intro x hx
    exact lookupLast_eq_none kw x (fun q hq hqx => hkw q hq (hqx ▸ hx))
  have hshape : ∀ x, x ∈ (["status", "title", "detail", "type", "instance"] : List String)
      → dictGet (dictUpdate d0 kw) x = dictGet d0 x := by
    intro x hx
    rw [dictGet_update, hkey x hx]
    rfl
  refine ⟨?_, ?_, ?_, ?_, ?_, ?_⟩
  · intro k hk
    rw [dictGet_update] at hk
    cases hl : lookupLast kw k with
    | some w =>
      rw [hl] at hk
      simp [orD] at hk
      rw [hk]
    | none =>
      rw [hl] at hk
      simp [orD] at hk
      exact absurd hk (hstd0 k)
  · intro hs
    rw [hshape "status" (by simp)]
    rw [problemStd_ok_shape_falsy s t dt ty i d0 hs h0]
    rw [insTail_get_other _ _ _ _ _ _ (by decide) (by decide) (by decide) (by decide)]
    rfl
  · intro ht hr
    rw [hshape "title" (by simp)]
    cases hs : pyTruthy s with
    | false =>
      rw [problemStd_ok_shape_falsy s t dt ty i d0 hs h0, insTail_get_title, ht]
      rfl
    | true =>
      cases hn : pyToInt s with
      | error e =>
        rw [problemStd_err s t dt ty i e hs hn] at h0
        exact absurd h0 (by simp)
      | ok n =>
        rw [problemStd_ok_shape_truthy s t dt ty i n d0 hs hn h0, insTail_get_title, ht]
        simp only [Bool.false_eq_true, if_false]
        simp [autoTitle, hr, statusBase_get_other n "title" (by decide)]
  · intro hdt
    rw [hshape "detail" (by simp)]
    cases hs : pyTruthy s with
    | false =>
      rw [problemStd_ok_shape_falsy s t dt ty i d0 hs h0, insTail_get_detail, hdt]
      rfl
    | true =>
      cases hn : pyToInt s with
      | error e =>
        rw [problemStd_err s t dt ty i e hs hn] at h0
        exact absurd h0 (by simp)
      | ok n =>
        rw [problemStd_ok_shape_truthy s t dt ty i n d0 hs hn h0, insTail_get_detail, hdt]
        simp only [Bool.false_eq_true, if_false]
        rw [dictGet_autoTitle_ne _ _ _ _ (by decide),
          statusBase_get_other n "detail" (by decide)]
  · intro hty
    rw [hshape "type" (by simp)]
    cases hs : pyTruthy s with
    | false =>
      rw [problemStd_ok_shape_falsy s t dt ty i d0 hs h0, insTail_get_type, hty]
      rfl
    | true =>
      cases hn : pyToInt s with
      | error e =>
        rw [problemStd_err s t dt ty i e hs hn] at h0
        exact absurd h0 (by simp)
      | ok n =>
        rw [problemStd_ok_shape_truthy s t dt ty i n d0 hs hn h0, insTail_get_type, hty]
        simp only [Bool.false_eq_true, if_false]
        rw [dictGet_autoTitle_ne _ _ _ _ (by decide),
          statusBase_get_other n "type" (by decide)]
  · intro hi
    rw [hshape "instance" (by simp)]
    cases hs : pyTruthy s with
    | false =>
      rw [problemStd_ok_shape_falsy s t dt ty i d0 hs h0, insTail_get_instance, hi]
      rfl
    | true =>
      cases hn : pyToInt s with
      | error e =>
        rw [problemStd_err s t dt ty i e hs hn] at h0
        exact absurd h0 (by simp)
      | ok n =>
        rw [problemStd_ok_shape_truthy s t dt ty i n d0 hs hn h0, insTail_get_instance, hi]
        simp only [Bool.false_eq_true, if_false]
        rw [dictGet_autoTitle_ne _ _ _ _ (by decide),
          statusBase_get_other n "instance" (by decide)]

/-- C1 (witness): the amended theorem applied to
`problem(foo="x")` (every standard field `None`, one truthy extension). -/
theorem problem_falsy_fields_absent_witness :
    dictGet [("foo", PyVal.vStr "x")] "status" = none
    ∧ dictGet [("foo", PyVal.vStr "x")] "title" = none
    ∧ dictGet [("foo", PyVal.vStr "x")] "detail" = none := by
  have h := problem_falsy_fields_absent .vNone .vNone .vNone .vNone .vNone
    [("foo", PyVal.vStr "x")] [("foo", PyVal.vStr "x")] (by decide) rfl
  exact ⟨h.2.1 rfl, h.2.2.1 rfl rfl, h.2.2.2.1 rfl⟩

/-- C2 (counterexample): `problem(status=404, title="about:blank")` with no
extensions yields title `"about:blank"`, not the reason phrase `"Not Found"`:
the auto-derived phrase is overwritten by the unconditional
`problem_dict['title'] = str(title)` because `"about:blank"` is truthy. -/
theorem problem_about_blank_counterexample :
    problem (.vInt 404) (.vStr "about:blank") .vNone .vNone .vNone []
        = .ok [("status", .vInt 404), ("title", .vStr "about:blank")]
    ∧ responsesLookup (.vInt 404) = some "Not Found"
    ∧ dictGet [("status", PyVal.vInt 404), ("title", PyVal.vStr "about:blank")]
        "title" ≠ some (PyVal.vStr "Not Found") :=
  ⟨rfl, rfl, by decide⟩

/-- C2 (amended): for every call with a truthy status and no extensions, the
output's `title` is `str(title)` whenever the supplied title is truthy — even
when it is exactly `"about:blank"`, which overwrites the auto-derived reason
phrase — and when the supplied title is falsy it is the reason phrase when
the raw status is a key of the standard table and absent otherwise. -/
theorem problem_title_derivation (s t dt ty i : PyVal) (d : Dict)
    (hs : pyTruthy s = true) (h : problem s t dt ty i [] = .ok d) :
    dictGet d "title"
      = if pyTruthy t then some (.vStr (pyStr t))
        else (responsesLookup s).map (fun ph => PyVal.vStr ph) := by
  obtain ⟨d0, h0, rfl⟩ := problem_ok_elim s t dt ty i [] d h
  cases hn : pyToInt s with
  | error e =>
    rw [problemStd_err s t dt ty i e hs hn] at h0
    exact absurd h0 (by simp)
  | ok n =>
    rw [problemStd_ok_shape_truthy s t dt ty i n d hs hn h0, insTail_get_title]
    cases ht : pyTruthy t with
    | true => rfl
    | false =>
      simp only [Bool.false_eq_true, if_false]
      unfold autoTitle
      rw [ht]
      cases hr : responsesLookup s with
      | some ph => simp [dictGet_insert_self]
      | none => simp [statusBase_get_other n "title" (by decide)]

/-- C2 (witness): the amended theorem applied to `problem(status=404)` with no
title: the output title is the reason phrase `"Not Found"`. -/
theorem problem_title_derivation_witness :
    dictGet [("status", PyVal.vInt 404), ("title", PyVal.vStr "Not Found")]
        "title"
      = (responsesLookup (.vInt 404)).map (fun ph => PyVal.vStr ph) := by
  have h := problem_title_derivation (.vInt 404) .vNone .vNone .vNone .vNone
    [("status", PyVal.vInt 404), ("title", PyVal.vStr "Not Found")] rfl rfl
  simpa [pyTruthy] using h

/-- C3: for every call with a truthy title different from `"about:blank"` and
no extensions, the output's `title` is the text form of the supplied title,
whatever the status contributed. -/
theorem problem_explicit_title_wins (s t dt ty i : PyVal) (d : Dict)
    (ht : pyTruthy t = true) (hb : t ≠ PyVal.vStr "about:blank")
    (h : problem s t dt ty i [] = .ok d) :
    dictGet d "title" = some (.vStr (pyStr t)) := by
  obtain ⟨d0, h0, rfl⟩ := problem_ok_elim s t dt ty i [] d h
  cases hs : pyTruthy s with
  | false =>
    rw [problemStd_ok_shape_falsy s t dt ty i d hs h0, insTail_get_title, ht]
    rfl
  | true =>
    cases hn : pyToInt s with
    | error e =>
      rw [problemStd_err s t dt ty i e hs hn] at h0
      exact absurd h0 (by simp)
    | ok n =>
      rw [problemStd_ok_shape_truthy s t dt ty i n d hs hn h0, insTail_get_title, ht]
      rfl

/-- C3 (witness): `problem(status=404, title="Custom")` yields title `"Custom"`. -/
theorem problem_explicit_title_wins_witness :
    dictGet [("status", PyVal.vInt 404), ("title", PyVal.vStr "Custom")] "title"
      = some (PyVal.vStr "Custom") :=
  problem_explicit_title_wins (.vInt 404) (.vStr "Custom") .vNone .vNone .vNone
    [("status", PyVal.vInt 404), ("title", PyVal.vStr "Custom")]
    rfl (by decide) rfl

/-- C4: for every call to `problem` that returns, every entry of the extension
mapping appears in the output with its own value, overwriting any same-named
key the standard-field steps produced (`problem_dict.update(kwargs)` runs
last). -/
theorem problem_extensions_override (s t dt ty i : PyVal) (kw d : Dict)
    (h : problem s t dt ty i kw = .ok d) (k : String) (v : PyVal)
    (hv : dictGet (dictUpdate [] kw) k = some v) :
    dictGet d k = some v := by
  obtain ⟨d0, h0, rfl⟩ := problem_ok_elim s t dt ty i kw d h
  rw [dictGet_update]
  rw [dictGet_update_nilbase] at hv
  simp [hv, orD]

/-- C4 (witness): the kwargs entry `("title", "X")` together with `status=404`
yields title `"X"`, not the auto-derived `"Not Found"`. -/
theorem problem_extensions_override_witness :
    dictGet [("status", PyVal.vInt 404), ("title", PyVal.vStr "X")] "title"
      = some (PyVal.vStr "X") :=
  problem_extensions_override (.vInt 404) .vNone .vNone .vNone .vNone
    [("title", PyVal.vStr "X")]
    [("status", PyVal.vInt 404), ("title", PyVal.vStr "X")]
    rfl "title" (PyVal.vStr "X") rfl

/-- C7: `problem` raises no error of its own; with extension keys not named
`status` (Python keyword binding guarantees this for every expressible call):
a falsy status returns normally with no `status` key; a truthy status that
coerces to an integer returns normally with `status` set to that integer; a
truthy status whose coercion fails propagates that error to the caller. -/
theorem problem_status_error_behavior (s t dt ty i : PyVal) (kw : Dict)
    (hkw : ∀ q ∈ kw, q.1 ≠ "status") :
    (pyTruthy s = false →
      exOk (problem s t dt ty i kw) = true
      ∧ ∀ d, problem s t dt ty i kw = .ok d → dictGet d "status" = none)
    ∧ (∀ n, pyTruthy s = true → pyToInt s = .ok n →
      exOk (problem s t dt ty i kw) = true
      ∧ ∀ d, problem s t dt ty i kw = .ok d → dictGet d "status" = some (.vInt n))
    ∧ (∀ e, pyTruthy s = true → pyToInt s = .error e →
      problem s t dt ty i kw = .error e) := by
  have hkey : lookupLast kw "status" = none := lookupLast_eq_none kw "status" hkw
  refine ⟨?_, ?_, ?_⟩
  · intro hs
    constructor
    · simp [problem, problemStd_falsy s t dt ty i hs, Except.map, exOk]
    · intro d h
      obtain ⟨d0, h0, rfl⟩ := problem_ok_elim s t dt ty i kw d h
      rw [dictGet_update, hkey, problemStd_ok_shape_falsy s t dt ty i d0 hs h0,
        insTail_get_other _ _ _ _ _ _ (by decide) (by decide) (by decide) (by decide)]
      rfl
  · intro n hs hn
    constructor
    · simp [problem, problemStd_ok s t dt ty i n hs hn, Except.map, exOk]
    · intro d h
      obtain ⟨d0, h0, rfl⟩ := problem_ok_elim s t dt ty i kw d h
      rw [dictGet_update, hkey, problemStd_ok_shape_truthy s t dt ty i n d0 hs hn h0,
        insTail_get_other _ _ _ _ _ _ (by decide) (by decide) (by decide) (by decide),
        dictGet_autoTitle_ne _ _ _ _ (by decide)]
      simp [dictInsert, dictGet, orD]
  · intro e hs he
    simp [problem, problemStd_err s t dt ty i e hs he, Except.map]

/-- C7 (witness): at `status="boom"` (truthy, not coercible) the coercion
error propagates, and at `status=404` the call returns normally with
`status` set to the integer `404`. -/
theorem problem_status_error_behavior_witness :
    problem (.vStr "boom") .vNone .vNone .vNone .vNone []
        = .error PyErr.invalidArgument
    ∧ exOk (problem (.vInt 404) .vNone .vNone .vNone .vNone []) = true
    ∧ dictGet [("status", PyVal.vInt 404), ("title", PyVal.vStr "Not Found")]
        "status" = some (PyVal.vInt 404) := by
  have h1 := problem_status_error_behavior (.vStr "boom") .vNone .vNone .vNone .vNone
    [] (by simp)
  have h2 := problem_status_error_behavior (.vInt 404) .vNone .vNone .vNone .vNone
    [] (by simp)
  exact ⟨h1.2.2 PyErr.invalidArgument rfl rfl, (h2.2.1 404 rfl rfl).1,
    (h2.2.1 404 rfl rfl).2 _ rfl⟩

/-- ASCII lowercase for one character, as Python `str.lower` acts on the
ASCII header names in play. -/
def charLower (c : Char) : Char :=
  if 65 ≤ c.toNat ∧ c.toNat ≤ 90 then Char.ofNat (c.toNat + 32) else c

/-- Python `s.lower()` for the header names in play. -/
def strLower (s : String) : String :=
  ⟨s.data.map charLower⟩

/-- A Python headers dict: ordered mapping from header name to value. -/
abbrev HeaderMap := List (String × String)

/-- The object store holding mutable header dicts: a reference is an index,
allocation appends. -/
abbrev Heap := List HeaderMap

/-- Dereference: the headers object a reference points to. -/
def hget : Heap → Nat → HeaderMap
  | [], _ => []
  | m :: _, 0 => m
  | _ :: rest, r + 1 => hget rest r

/-- In-place mutation of the object a reference points to. -/
def hset : Heap → Nat → HeaderMap → Heap
  | [], _, _ => []
  | _ :: rest, 0, m => m :: rest
  | m0 :: rest, r + 1, m => m0 :: hset rest r m

/-- The AWS-lambda style envelope `problem_http_response` returns:
`{'statusCode': status, 'body': SERIALIZE_METHOD(body), 'headers': headers}`.
`headersRef` is the reference to the (possibly caller-owned) headers dict. -/
structure Envelope where
  statusCode : PyVal
  body : String
  headersRef : Nat
deriving DecidableEq, Repr

/-- `problem_http_response(status=None, title=None, detail=None, type=None,
instance=None, headers=None, **kwargs)` (lines 142-181 of `problem.py`).
`serialize` stands for the process-wide `SERIALIZE_METHOD`; `headers` is a
reference into `heap` (`none` = the default `None`). The body mirrors the
source: normalize via `problem`, replace a falsy `headers` by a fresh empty
dict, scan the keys case-insensitively for `content-type`, insert the default
`Content-Type` when none was found, and return the three-key envelope with
the raw `status`. -/
def problem_http_response (serialize : Dict → String)
    (status title detail type instance_ : PyVal)
    (headers : Option Nat) (kwargs : Dict) (heap : Heap) :
    Except PyErr (Envelope × Heap) :=
  match problem status title detail type instance_ kwargs with
  | .error e => .error e
  | .ok body =>
    let rh : Heap × Nat :=
      match headers with
      | none => (heap ++ [[]], heap.length)
      | some r0 =>
        if hget heap r0 = [] then (heap ++ [[]], heap.length) else (heap, r0)
    let heap1 := rh.1
    let r := rh.2
    let hs := hget heap1 r
    let has_content_type := hs.any (fun q => strLower q.1 == "content-type")
    let heap2 :=
      if has_content_type then heap1
      else hset heap1 r (dictInsert hs "Content-Type" "application/problem+json")
    .ok (Envelope.mk status (serialize body) r, heap2)

theorem hget_hset_self (h : Heap) (r : Nat) (m : HeaderMap) (hr : r < h.length) :
    hget (hset h r m) r = m := by
  induction h generalizing r with
  | nil => simp at hr
  | cons m0 rest ih =>
    cases r with
    | zero => rfl
    | succ r => exact ih r (by simpa using hr)

theorem hget_hset_ne (h : Heap) (r r' : Nat) (m : HeaderMap) (hne : r' ≠ r) :
    hget (hset h r m) r' = hget h r' := by
  induction h generalizing r r' with
  | nil => rfl
  | cons m0 rest ih =>
    cases r with
    | zero =>
      cases r' with
      | zero => exact absurd rfl hne
      | succ r' => rfl
    | succ r =>
      cases r' with
      | zero => rfl
      | succ r' => exact ih r r' (fun hh => hne (by rw [hh]))

theorem hget_append_self (h : Heap) (m : HeaderMap) :
    hget (h ++ [m]) h.length = m := by
  induction h with
  | nil => rfl
  | cons m0 rest ih => simpa using ih

theorem hget_append_lt (h : Heap) (m : HeaderMap) (r : Nat) (hr : r < h.length) :
    hget (h ++ [m]) r = hget h r := by
  induction h generalizing r with
  | nil => simp at hr
  | cons m0 rest ih =>
    cases r with
    | zero => rfl
    | succ r => exact ih r (by simpa using hr)

theorem lt_of_hget_ne_nil (h : Heap) (r : Nat) (hne : hget h r ≠ []) :
    r < h.length := by
  induction h generalizing r with
  | nil => exact absurd rfl hne
  | cons m0 rest ih =>
    cases r with
    | zero => simp
    | succ r => simpa using ih r hne

theorem hset_append_self (h : Heap) (m m' : HeaderMap) :
    hset (h ++ [m]) h.length m' = h ++ [m'] := by
  induction h with
  | nil => rfl
  | cons m0 rest ih =>
    simp only [List.cons_append, List.length_cons, hset]
    exact congrArg (List.cons m0) ih

theorem phr_ok_elim (ser : Dict → String) (s t dt ty i : PyVal)
    (hdrs : Option Nat) (kw : Dict) (heap : Heap) (env : Envelope) (heap' : Heap)
    (h : problem_http_response ser s t dt ty i hdrs kw heap = .ok (env, heap')) :
    ∃ body, problem s t dt ty i kw = .ok body := by
  cases hb : problem s t dt ty i kw with
  | error e => simp [problem_http_response, hb] at h
  | ok body => exact ⟨body, rfl⟩

theorem phr_none (ser : Dict → String) (s t dt ty i : PyVal) (kw : Dict)
    (heap : Heap) (body : Dict) (hb : problem s t dt ty i kw = .ok body) :
    problem_http_response ser s t dt ty i none kw heap
      = .ok (Envelope.mk s (ser body) heap.length,
             heap ++ [[("Content-Type", "application/problem+json")]]) := by
  simp only [problem_http_response, hb]
  rw [hget_append_self]
  simp [hset_append_self, dictInsert]

theorem phr_some_empty (ser : Dict → String) (s t dt ty i : PyVal) (r0 : Nat)
    (kw : Dict) (heap : Heap) (body : Dict)
    (hb : problem s t dt ty i kw = .ok body) (hm : hget heap r0 = []) :
    problem_http_response ser s t dt ty i (some r0) kw heap
      = .ok (Envelope.mk s (ser body) heap.length,
             heap ++ [[("Content-Type", "application/problem+json")]]) := by
  simp only [problem_http_response, hb, hm, if_true]
  rw [hget_append_self]
  simp [hset_append_self, dictInsert]

theorem phr_some_ct (ser : Dict → String) (s t dt ty i : PyVal) (r0 : Nat)
    (kw : Dict) (heap : Heap) (body : Dict)
    (hb : problem s t dt ty i kw = .ok body) (hm : hget heap r0 ≠ [])
    (hct : (hget heap r0).any (fun q => strLower q.1 == "content-type") = true) :
    problem_http_response ser s t dt ty i (some r0) kw heap
      = .ok (Envelope.mk s (ser body) r0, heap) := by
  simp only [problem_http_response, hb]
  rw [if_neg hm]
  simp [hct]

theorem phr_some_noct (ser : Dict → String) (s t dt ty i : PyVal) (r0 : Nat)
    (kw : Dict) (heap : Heap) (body : Dict)
    (hb : problem s t dt ty i kw = .ok body) (hm : hget heap r0 ≠ [])
    (hct : (hget heap r0).any (fun q => strLower q.1 == "content-type") = false) :
    problem_http_response ser s t dt ty i (some r0) kw heap
      = .ok (Envelope.mk s (ser body) r0,
             hset heap r0 (dictInsert (hget heap r0) "Content-Type"
               "application/problem+json")) := by
  simp only [problem_http_response, hb]
  rw [if_neg hm]
  simp [hct]

theorem dictInsert_ct_append (m : HeaderMap)
    (hct : m.any (fun q => strLower q.1 == "content-type") = false) :
    dictInsert m "Content-Type" "application/problem+json"
      = m ++ [("Content-Type", "application/problem+json")] := by
  apply dictInsert_eq_append
  intro q hq heq
  have hq1 : (strLower q.1 == "content-type") = true := by
    rw [heq]
    decide
  have hany : m.any (fun p => strLower p.1 == "content-type") = true :=
    List.any_eq_true.mpr ⟨q, hq, hq1⟩
  rw [hct] at hany
  exact Bool.false_ne_true hany

/-- C5 (counterexample): when the caller supplies exactly the header
`Content-Type: application/problem+json` themselves, the result's headers do
contain the entry `("Content-Type", "application/problem+json")` even though a
key equal to `content-type` case-insensitively exists in the supplied
mapping — so the claimed "if and only if" fails in the only-if direction. -/
theorem http_response_content_type_counterexample :
    problem_http_response (fun _ => "") (.vInt 400) .vNone .vNone .vNone .vNone
        (some 0) [] [[("Content-Type", "application/problem+json")]]
      = .ok (Envelope.mk (.vInt 400) "" 0,
             [[("Content-Type", "application/problem+json")]])
    ∧ dictGet (hget [[("Content-Type", "application/problem+json")]] 0)
        "Content-Type" = some "application/problem+json"
    ∧ (hget [[("Content-Type", "application/problem+json")]] 0).any
        (fun q => strLower q.1 == "content-type") = true :=
  ⟨rfl, rfl, by decide⟩

/-- C5 (amended): for every call of `problem_http_response` that returns, the
content of the headers object the envelope refers to is the supplied headers
mapping itself when it has a key equal to `content-type` case-insensitively,
and otherwise the supplied mapping (empty when `headers` was absent or empty)
with the entry `Content-Type: application/problem+json` appended; in
particular every caller-supplied entry appears unchanged and the default is
added exactly when no case-variant of `content-type` was present. -/
theorem http_response_content_type (ser : Dict → String) (s t dt ty i : PyVal)
    (hdrs : Option Nat) (kw : Dict) (heap : Heap) (env : Envelope) (heap' : Heap)
    (h : problem_http_response ser s t dt ty i hdrs kw heap = .ok (env, heap')) :
    (hdrs = none →
      hget heap' env.headersRef = [("Content-Type", "application/problem+json")])
    ∧ (∀ r0, hdrs = some r0 →
      hget heap' env.headersRef =
        if (hget heap r0).any (fun q => strLower q.1 == "content-type")
        then hget heap r0
        else hget heap r0 ++ [("Content-Type", "application/problem+json")]) := by
  obtain ⟨body, hb⟩ := phr_ok_elim ser s t dt ty i hdrs kw heap env heap' h
  constructor
  · rintro rfl
    rw [phr_none ser s t dt ty i kw heap body hb] at h
    injection h with h1
    injection h1 with he hh
    subst he
    subst hh
    exact hget_append_self heap _
  · rintro r0 rfl
    by_cases hm : hget heap r0 = []
    · rw [phr_some_empty ser s t dt ty i r0 kw heap body hb hm] at h
      injection h with h1
      injection h1 with he hh
      subst he
      subst hh
      rw [hm]
      simp [hget_append_self]
    · cases hct : (hget heap r0).any (fun q => strLower q.1 == "content-type") with
      | true =>
        rw [phr_some_ct ser s t dt ty i r0 kw heap body hb hm hct] at h
        injection h with h1
        injection h1 with he hh
        subst he
        subst hh
        simp [hct]
      | false =>
        rw [phr_some_noct ser s t dt ty i r0 kw heap body hb hm hct] at h
        injection h with h1
        injection h1 with he hh
        subst he
        subst hh
        have hlt : r0 < heap.length := lt_of_hget_ne_nil heap r0 hm
        simp [hct, hget_hset_self heap r0 _ hlt, dictInsert_ct_append _ hct]

/-- C5 (witness): the amended theorem applied to
`problem_http_response(status=400, headers={"X-Trace": "1"})`: the headers
had no content-type key, so the default entry is appended after `X-Trace`. -/
theorem http_response_content_type_witness :
    hget [[("X-Trace", "1"), ("Content-Type", "application/problem+json")]] 0
      = if (hget [[("X-Trace", "1")]] 0).any
            (fun q => strLower q.1 == "content-type")
        then hget [[("X-Trace", "1")]] 0
        else hget [[("X-Trace", "1")]] 0
          ++ [("Content-Type", "application/problem+json")] := by
  have h := http_response_content_type (fun _ => "") (.vInt 400) .vNone .vNone
    .vNone .vNone (some 0) [] [[("X-Trace", "1")]] (Envelope.mk (.vInt 400) "" 0)
    [[("X-Trace", "1"), ("Content-Type", "application/problem+json")]] rfl
  exact h.2 0 rfl

/-- C6: the `statusCode` field of the envelope is the raw `status` argument,
exactly as passed in — never the integer-coerced value placed in the body,
and unchanged even when falsy or `None`. -/
theorem http_response_statusCode_raw (ser : Dict → String) (s t dt ty i : PyVal)
    (hdrs : Option Nat) (kw : Dict) (heap : Heap) (env : Envelope) (heap' : Heap)
    (h : problem_http_response ser s t dt ty i hdrs kw heap = .ok (env, heap')) :
    env.statusCode = s := by
  cases hb : problem s t dt ty i kw with
  | error e => simp [problem_http_response, hb] at h
  | ok body =>
    simp only [problem_http_response, hb] at h
    injection h with h1
    injection h1 with he hh
    rw [← he]

/-- C6 (witness): with the string status `"400"` the body gets the coerced
integer `400` but `statusCode` stays the raw string `"400"`. -/
theorem http_response_statusCode_raw_witness :
    (Envelope.mk (PyVal.vStr "400") "served" 0).statusCode = PyVal.vStr "400"
    ∧ problem (.vStr "400") .vNone .vNone .vNone .vNone []
        = .ok [("status", PyVal.vInt 400)] :=
  ⟨http_response_statusCode_raw (fun _ => "served") (.vStr "400") .vNone .vNone
    .vNone .vNone none [] [] (Envelope.mk (.vStr "400") "served" 0)
    [[("Content-Type", "application/problem+json")]] rfl, rfl⟩

/-- C10: a non-empty supplied headers dict is mutated in place and returned as
the envelope's headers object (same reference, all other objects untouched,
the default `Content-Type` appended exactly when no case-variant of
`content-type` was present); an absent or empty (falsy) headers argument
leaves every existing object — including the caller's empty dict — untouched
and a freshly allocated mapping holding only the default entry is returned. -/
theorem http_response_headers_in_place (ser : Dict → String) (s t dt ty i : PyVal)
    (hdrs : Option Nat) (kw : Dict) (heap : Heap) (env : Envelope) (heap' : Heap)
    (h : problem_http_response ser s t dt ty i hdrs kw heap = .ok (env, heap')) :
    (∀ r0, hdrs = some r0 → hget heap r0 ≠ [] →
      env.headersRef = r0
      ∧ (∀ r', r' ≠ r0 → hget heap' r' = hget heap r')
      ∧ ((hget heap r0).any (fun q => strLower q.1 == "content-type") = true →
          hget heap' r0 = hget heap r0)
      ∧ ((hget heap r0).any (fun q => strLower q.1 == "content-type") = false →
          hget heap' r0
            = hget heap r0 ++ [("Content-Type", "application/problem+json")]))
    ∧ (hdrs = none →
      env.headersRef = heap.length
      ∧ hget heap' env.headersRef = [("Content-Type", "application/problem+json")]
      ∧ ∀ r', r' < heap.length → hget heap' r' = hget heap r')
    ∧ (∀ r0, hdrs = some r0 → hget heap r0 = [] →
      env.headersRef = heap.length
      ∧ hget heap' env.headersRef = [("Content-Type", "application/problem+json")]
      ∧ ∀ r', r' < heap.length → hget heap' r' = hget heap r') := by
  obtain ⟨body, hb⟩ := phr_ok_elim ser s t dt ty i hdrs kw heap env heap' h
  refine ⟨?_, ?_, ?_⟩
  · rintro r0 rfl hm
    cases hct : (hget heap r0).any (fun q => strLower q.1 == "content-type") with
    | true =>
      rw [phr_some_ct ser s t dt ty i r0 kw heap body hb hm hct] at h
      injection h with h1
      injection h1 with he hh
      subst he
      subst hh
      exact ⟨rfl, fun r' _ => rfl, fun _ => rfl, fun hcf => Bool.noConfusion hcf⟩
    | false =>
      rw [phr_some_noct ser s t dt ty i r0 kw heap body hb hm hct] at h
      injection h with h1
      injection h1 with he hh
      subst he
      subst hh
      refine ⟨rfl, ?_, ?_, ?_⟩
      · intro r' hne
        exact hget_hset_ne heap r0 r' _ hne
      · intro hcf
        exact Bool.noConfusion hcf
      · intro _
        rw [hget_hset_self heap r0 _ (lt_of_hget_ne_nil heap r0 hm),
          dictInsert_ct_append _ hct]
  · rintro rfl
    rw [phr_none ser s t dt ty i kw heap body hb] at h
    injection h with h1
    injection h1 with he hh
    subst he
    subst hh
    exact ⟨rfl, hget_append_self heap _, fun r' hlt => hget_append_lt heap _ r' hlt⟩
  · rintro r0 rfl hm
    rw [phr_some_empty ser s t dt ty i r0 kw heap body hb hm] at h
    injection h with h1
    injection h1 with he hh
    subst he
    subst hh
    exact ⟨rfl, hget_append_self heap _, fun r' hlt => hget_append_lt heap _ r' hlt⟩

/-- C10 (witness): the theorem applied to
`problem_http_response(status=400, headers={"X-Trace": "1"})`: the caller's
dict (reference 0) is the envelope's headers object and its content after the
call is the old content with the default `Content-Type` entry appended. -/
theorem http_response_headers_in_place_witness :
    (Envelope.mk (PyVal.vInt 400) "" 0).headersRef = 0
    ∧ hget [[("X-Trace", "1"), ("Content-Type", "application/problem+json")]] 0
        = hget [[("X-Trace", "1")]] 0
          ++ [("Content-Type", "application/problem+json")] := by
  have h := http_response_headers_in_place (fun _ => "") (.vInt 400) .vNone
    .vNone .vNone .vNone (some 0) [] [[("X-Trace", "1")]]
    (Envelope.mk (.vInt 400) "" 0)
    [[("X-Trace", "1"), ("Content-Type", "application/problem+json")]] rfl
  have h1 := h.1 0 rfl (by decide)
  exact ⟨h1.1, h1.2.2.2 (by decide)⟩

/-- The `Problem` exception class (lines 34-101 of `problem.py`): stores the
raw fields verbatim; `kwargs` holds the extension keyword arguments (Python
keyword binding keeps the five named parameters out of it). -/
structure Problem where
  status : PyVal
  title : PyVal
  detail : PyVal
  type : PyVal
  instance_ : PyVal
  kwargs : Dict
deriving DecidableEq

/-- `Problem.to_dict(self, with_traceback=None)` (lines 61-77): `wtbGlobal`
is the module-level `WITH_TRACEBACK` flag read when the argument is `None`;
`fmtExc` is the (opaque) text `traceback.format_exc()` returns at the moment
of the call. With traceback inclusion on, the source calls
`problem(..., traceback=traceback.format_exc(), **self.kwargs)`: Python
keyword binding raises a duplicate-keyword `TypeError` when `self.kwargs`
already holds a `traceback` key, and otherwise the callee receives the kwargs
dict `{'traceback': fmtExc, **self.kwargs}`. -/
def Problem.to_dict (p : Problem) (with_traceback : Option Bool)
    (wtbGlobal : Bool) (fmtExc : String) : Except PyErr Dict :=
  let wtb := with_traceback.getD wtbGlobal
  if wtb then
    if p.kwargs.any (fun q => q.1 == "traceback") then .error .duplicateKeyword
    else problem p.status p.title p.detail p.type p.instance_
      (("traceback", .vStr fmtExc) :: p.kwargs)
  else problem p.status p.title p.detail p.type p.instance_ p.kwargs

/-- Python `repr(x)` for the modelled scalar values (string quoting in the
plain single-quoted form; embedded quotes are not escaped in this model). -/
def pyRepr : PyVal → String
  | .vNone => "None"
  | .vBool true => "True"
  | .vBool false => "False"
  | .vInt n => toString n
  | .vStr s => "\x27" ++ s ++ "\x27"

/-- Python `str(d)` for a dict. -/
def pyReprDict (d : Dict) : String :=
  "\x7b" ++ String.intercalate ", "
    (d.map (fun q => "\x27" ++ q.1 ++ "\x27: " ++ pyRepr q.2)) ++ "\x7d"

/-- `Problem.__str__` (lines 97-98): `str(self.to_dict(with_traceback=False))`. -/
def Problem.str (p : Problem) (wtbGlobal : Bool) (fmtExc : String) :
    Except PyErr String :=
  (p.to_dict (some false) wtbGlobal fmtExc).map pyReprDict

/-- `Problem.__repr__` (lines 100-101): `str(self)`. -/
def Problem.repr (p : Problem) (wtbGlobal : Bool) (fmtExc : String) :
    Except PyErr String :=
  p.str wtbGlobal fmtExc

theorem problem_get_nonstandard (s t dt ty i : PyVal) (kw d : Dict) (k : String)
    (h1 : k ≠ "status") (h2 : k ≠ "title") (h3 : k ≠ "detail") (h4 : k ≠ "type")
    (h5 : k ≠ "instance") (h : problem s t dt ty i kw = .ok d) :
    dictGet d k = lookupLast kw k := by
  obtain ⟨d0, h0, rfl⟩ := problem_ok_elim s t dt ty i kw d h
  rw [dictGet_update]
  have hnone : dictGet d0 k = none := by
    cases hs : pyTruthy s with
    | false =>
      rw [problemStd_ok_shape_falsy s t dt ty i d0 hs h0,
        insTail_get_other _ _ _ _ _ _ h2 h3 h4 h5]
      rfl
    | true =>
      cases hn : pyToInt s with
      | error e =>
        rw [problemStd_err s t dt ty i e hs hn] at h0
        exact absurd h0 (by simp)
      | ok n =>
        rw [problemStd_ok_shape_truthy s t dt ty i n d0 hs hn h0,
          insTail_get_other _ _ _ _ _ _ h2 h3 h4 h5,
          dictGet_autoTitle_ne _ _ _ _ h2, statusBase_get_other n k h1]
  rw [hnone]
  cases lookupLast kw k <;> rfl

/-- C8 (counterexample): a `Problem` constructed with an extension field
already named `traceback` does not get the captured trace merged: with the
policy flag on, `to_dict()` raises the duplicate-keyword `TypeError` produced
by `problem(..., traceback=format_exc(), **self.kwargs)` instead of
returning a mapping. -/
theorem to_dict_traceback_collision_counterexample :
    Problem.to_dict
        (Problem.mk .vNone .vNone .vNone .vNone .vNone
          [("traceback", PyVal.vStr "stored")])
        none true "captured"
      = .error PyErr.duplicateKeyword := rfl

/-- C8 (amended): `to_dict` with `with_traceback` unspecified resolves it to
the process-wide flag; when the resolved flag is true and no stored extension
is named `traceback`, the result is the normalization of the stored fields
with the captured trace text under the `traceback` key; when a stored
extension is named `traceback`, the call instead raises a duplicate-keyword
error; when the resolved flag is false the result has no `traceback` key
(given no stored `traceback` extension). -/
theorem to_dict_traceback_policy (p : Problem) (W : Bool) (fmt : String) :
    (p.to_dict none W fmt = p.to_dict (some W) W fmt)
    ∧ ((∀ q ∈ p.kwargs, q.1 ≠ "traceback") →
      (p.to_dict (some true) W fmt
          = problem p.status p.title p.detail p.type p.instance_
              (("traceback", .vStr fmt) :: p.kwargs))
      ∧ (∀ d, p.to_dict (some true) W fmt = .ok d →
          dictGet d "traceback" = some (.vStr fmt))
      ∧ (∀ d, p.to_dict (some false) W fmt = .ok d →
          dictGet d "traceback" = none))
    ∧ (p.kwargs.any (fun q => q.1 == "traceback") = true →
      p.to_dict (some true) W fmt = .error PyErr.duplicateKeyword) := by
  refine ⟨rfl, ?_, ?_⟩
  · intro hkw
    have hanyf : p.kwargs.any (fun q => q.1 == "traceback") = false := by
      cases hany : p.kwargs.any (fun q => q.1 == "traceback") with
      | false => rfl
      | true =>
        obtain ⟨q, hq, hq1⟩ := List.any_eq_true.mp hany
        exact absurd (by simpa using hq1) (hkw q hq)
    have heq : p.to_dict (some true) W fmt
        = problem p.status p.title p.detail p.type p.instance_
            (("traceback", .vStr fmt) :: p.kwargs) := by
      simp [Problem.to_dict, hanyf]
    refine ⟨heq, ?_, ?_⟩
    · intro d hd
      rw [heq] at hd
      rw [problem_get_nonstandard _ _ _ _ _ _ _ _ (by decide) (by decide) (by decide)
        (by decide) (by decide) hd]
      simp [lookupLast, lookupLast_eq_none p.kwargs "traceback" hkw]
    · intro d hd
      have hd' : problem p.status p.title p.detail p.type p.instance_ p.kwargs
          = .ok d := hd
      rw [problem_get_nonstandard _ _ _ _ _ _ _ _ (by decide) (by decide) (by decide)
        (by decide) (by decide) hd']
      exact lookupLast_eq_none p.kwargs "traceback" hkw
  · intro hany
    simp [Problem.to_dict, hany]

/-- C8 (witness): the amended theorem applied to `Problem(status=500)` with
the flag on: the captured text appears under `traceback`. -/
theorem to_dict_traceback_policy_witness :
    dictGet [("status", PyVal.vInt 500),
             ("title", PyVal.vStr "Internal Server Error"),
             ("traceback", PyVal.vStr "tb")] "traceback"
      = some (PyVal.vStr "tb") := by
  have h := to_dict_traceback_policy
    (Problem.mk (.vInt 500) .vNone .vNone .vNone .vNone []) true "tb"
  exact (h.2.1 (by simp)).2.1 _ rfl

/-- C9: the text rendering `__str__` (and `__repr__`, which is `str(self)`)
equals the text form of `to_dict(with_traceback=False)`: it does not depend
on the process-wide flag or on the current trace text, and no `traceback`
key derived from trace capture can appear in it (none is present whenever no
stored extension is named `traceback`). -/
theorem str_uses_to_dict_without_traceback (p : Problem) (W W' : Bool)
    (fmt fmt' : String) :
    p.str W fmt = p.str W' fmt'
    ∧ p.repr W fmt = p.str W fmt
    ∧ p.str W fmt = (p.to_dict (some false) W fmt).map pyReprDict
    ∧ ((∀ q ∈ p.kwargs, q.1 ≠ "traceback") →
      ∀ d, p.to_dict (some false) W fmt = .ok d →
        dictGet d "traceback" = none) := by
  refine ⟨rfl, rfl, rfl, ?_⟩
  intro hkw d hd
  have hd' : problem p.status p.title p.detail p.type p.instance_ p.kwargs
      = .ok d := hd
  rw [problem_get_nonstandard _ _ _ _ _ _ _ _ (by decide) (by decide) (by decide)
    (by decide) (by decide) hd']
  exact lookupLast_eq_none p.kwargs "traceback" hkw

/-- C9 (witness): the theorem applied to `Problem(status=500)` with the flag
on: the text rendering is the text form of `to_dict(with_traceback=False)`,
which holds no `traceback` key. -/
theorem str_uses_to_dict_without_traceback_witness :
    Problem.str (Problem.mk (.vInt 500) .vNone .vNone .vNone .vNone []) true "tb"
      = (Problem.to_dict (Problem.mk (.vInt 500) .vNone .vNone .vNone .vNone [])
          (some false) true "tb").map pyReprDict
    ∧ dictGet [("status", PyVal.vInt 500),
               ("title", PyVal.vStr "Internal Server Error")] "traceback"
        = none := by
  have h := str_uses_to_dict_without_traceback
    (Problem.mk (.vInt 500) .vNone .vNone .vNone .vNone []) true false "tb" "other"
  exact ⟨h.2.2.1, h.2.2.2 (by simp) _ rfl⟩
